import Mathlib

/-!
Verification of the statistics layer of `src/homework-2/main.py`.

The Python functions are embedded shallowly over the real numbers:

* Python floats are modelled as `ℝ`, Python ints as `ℤ`/`ℕ`; float exact
  equality tests (`== 0`) become real equality tests.
* `x ** 0.5` on a nonnegative float is the real square root, modelled by
  `Real.sqrt` (every square root taken by the code is applied to a
  nonnegative quantity on the inputs considered here).
* Functions that can raise a Python exception are modelled with
  `Except PyErr`; functions that return an error *string* instead of a
  number keep that string in a dedicated result constructor.
* The inputs of the statistics layer are sequences of real numbers
  (Python lists/tuples of ints and floats), so in `t_test` the dispatch
  condition `isinstance(data, (list, tuple)) and not isinstance(data[0],
  (int, float))` is false for every non-empty side and raises
  `IndexError` for an empty side: the `params.append(data)` branch is
  unreachable for numeric inputs and has no counterpart here.
-/

/-- Untyped Python exceptions that the embedded functions can raise. -/
inductive PyErr : Type
  | indexError
  | zeroDivisionError
  | typeError
  deriving DecidableEq

/-- Result of `pooled_std_dev`: either a number, or the error string the
source returns when fewer than two pairings are supplied. -/
inductive PooledRet : Type
  | num (x : ℝ)
  | errStr (s : String)

/-- Result of `anova`: either the `(f_stat, p_value)` pair, or the error
string the source returns when fewer than three datasets are supplied. -/
inductive AnovaOut : Type
  | pair (f p : ℝ)
  | errStr (s : String)

noncomputable section

/-- Harmonic-mean loop of `calculate_mean` (main.py lines 32-38): walk the
data, returning `0.0` as soon as a zero element is met, otherwise
accumulating reciprocals; after the loop the source computes
`n / total_reciprocal`, which raises `ZeroDivisionError` when the
accumulated total is `0`. -/
def harmonic_from (n : ℝ) (acc : ℝ) : List ℝ → Except PyErr ℝ
  | [] => if acc = 0 then .error .zeroDivisionError else .ok (n / acc)
  | x :: xs => if x = 0 then .ok 0 else harmonic_from n (acc + 1 / x) xs

/-- `calculate_mean` from main.py on a single flat dataset (lines 25-43):
an empty dataset returns `0`; otherwise either the harmonic-mean loop or
the arithmetic mean `sum(data) / n`. -/
def calculate_mean (data : List ℝ) (use_harmonic : Bool) : Except PyErr ℝ :=
  let n := data.length
  if n = 0 then .ok 0
  else if use_harmonic then harmonic_from (n : ℝ) 0 data
  else .ok (data.sum / (n : ℝ))

/-- Nested branch of `calculate_mean` (main.py lines 16-23): on a list of
datasets the flat computation is applied to each dataset in order. -/
def calculate_mean_nested (data : List (List ℝ)) (use_harmonic : Bool) :
    Except PyErr (List ℝ) :=
  data.mapM fun d => calculate_mean d use_harmonic

/-- `std_dev` from main.py (lines 46-61): population standard deviation;
empty data returns `0`. -/
def std_dev (data : List ℝ) : ℝ :=
  let n := data.length
  if n = 0 then 0
  else
    let mean := data.sum / (n : ℝ)
    let sq_diff := (data.map fun x => (x - mean) ^ 2).sum
    Real.sqrt (sq_diff / (n : ℝ))

/-- Accumulation loop of `pooled_std_dev` (main.py lines 77-79): numerator
`+= (n - 1) * sigma ** 2`, denominator `+= n - 1`.  The numerator is a
Python float, the denominator stays a Python int. -/
def pooled_acc : List (ℝ × ℤ) → ℝ → ℤ → ℝ × ℤ
  | [], numerator, denominator => (numerator, denominator)
  | (sigma, n) :: rest, numerator, denominator =>
      pooled_acc rest (numerator + ((n : ℤ) - 1 : ℤ) * sigma ^ 2) (denominator + (n - 1))

/-- `pooled_std_dev` from main.py (lines 64-84): the error string for
fewer than two pairings, `0` when the pooled degrees of freedom are `0`,
otherwise the square root of numerator over denominator. -/
def pooled_std_dev (data_pairs : List (ℝ × ℤ)) : PooledRet :=
  if data_pairs.length < 2 then .errStr "error: need at least two pairings to pool"
  else
    let nd := pooled_acc data_pairs 0 0
    if nd.2 = 0 then .num 0
    else .num (Real.sqrt (nd.1 / (nd.2 : ℝ)))

/-- Per-side preprocessing loop of `t_test` (main.py lines 95-106): an
empty side raises `IndexError` at the unguarded `data[0]` access inside
the dispatch condition; a non-empty sequence of numbers always fails
`not isinstance(data[0], (int, float))` and is aggregated into
`(calculate_mean(data), std_dev(data), len(data))`. -/
def sideParams (data : List ℝ) (use_harmonic : Bool) : Except PyErr (ℝ × ℝ × ℕ) :=
  match data with
  | [] => .error .indexError
  | x :: xs =>
      match calculate_mean (x :: xs) use_harmonic with
      | .error e => .error e
      | .ok mu => .ok (mu, std_dev (x :: xs), (x :: xs).length)

/-- `t_test` from main.py (lines 87-123) over two numeric sequences.  The
p-value calculation delegates to `scipy.stats.t.cdf`, which is external
to the repository and is therefore a parameter `tcdf` of the embedding.
If `pooled_std_dev` returned its error string, the source would multiply
a string by a float, a `TypeError` (unreachable here: exactly two
pairings are passed).  A zero standard error raises `ZeroDivisionError`
at `(mu1 - mu2) / standard_error`. -/
def t_test (tcdf : ℝ → ℤ → ℝ) (data1 data2 : List ℝ) (use_harmonic : Bool) :
    Except PyErr (ℝ × ℝ) :=
  match sideParams data1 use_harmonic with
  | .error e => .error e
  | .ok (mu1, sigma1, n1) =>
    match sideParams data2 use_harmonic with
    | .error e => .error e
    | .ok (mu2, sigma2, n2) =>
      match pooled_std_dev [(sigma1, (n1 : ℤ)), (sigma2, (n2 : ℤ))] with
      | .errStr _ => .error .typeError
      | .num sigma_p =>
        let standard_error := sigma_p * Real.sqrt (1 / (n1 : ℝ) + 1 / (n2 : ℝ))
        if standard_error = 0 then .error .zeroDivisionError
        else
          let t_value := (mu1 - mu2) / standard_error
          let degrees_freedom : ℤ := (n1 : ℤ) + (n2 : ℤ) - 2
          .ok (t_value, 2 * (1 - tcdf |t_value| degrees_freedom))

/-- Between-groups sum-of-squares loop of `anova` (main.py lines 148-152). -/
def anova_ssb (overall_mean : ℝ) : List (List ℝ) → ℝ → Except PyErr ℝ
  | [], acc => .ok acc
  | data :: rest, acc =>
      match calculate_mean data false with
      | .error e => .error e
      | .ok group_mean =>
          anova_ssb overall_mean rest
            (acc + (data.length : ℝ) * (group_mean - overall_mean) ^ 2)

/-- `anova` from main.py (lines 126-168).  `scipy.stats.f.cdf` is external
and appears as the parameter `fcdf`.  Fewer than three datasets return the
error string; a zero divisor in any of the divisions raises
`ZeroDivisionError` (in particular `df_within = N - m = 0`). -/
def anova (fcdf : ℝ → ℤ → ℤ → ℝ) (datasets : List (List ℝ)) : Except PyErr AnovaOut :=
  let m := datasets.length
  if m < 3 then .ok (.errStr "error: anova requires at least 3 datasets")
  else
    let all_observations := datasets.flatten
    let N := all_observations.length
    match calculate_mean all_observations false with
    | .error e => .error e
    | .ok overall_mean =>
      let sum_squares_total := (all_observations.map fun x => (x - overall_mean) ^ 2).sum
      match anova_ssb overall_mean datasets 0 with
      | .error e => .error e
      | .ok sum_squares_between =>
        let sum_squares_within := sum_squares_total - sum_squares_between
        let dfb : ℤ := (m : ℤ) - 1
        let dfw : ℤ := (N : ℤ) - (m : ℤ)
        if dfb = 0 then .error .zeroDivisionError
        else
          let mean_squares_between := sum_squares_between / (dfb : ℝ)
          if dfw = 0 then .error .zeroDivisionError
          else
            let mean_squares_within := sum_squares_within / (dfw : ℝ)
            if mean_squares_within = 0 then .error .zeroDivisionError
            else
              let f_stat := mean_squares_between / mean_squares_within
              .ok (.pair f_stat (1 - fcdf f_stat dfb dfw))

/-- Subjects sum-of-squares loop of `rmanova` (main.py lines 190-193). -/
def rmanova_sss (num_columns : ℕ) (avm : ℝ) : List (List ℝ) → ℝ → Except PyErr ℝ
  | [], acc => .ok acc
  | data :: rest, acc =>
      match calculate_mean data false with
      | .error e => .error e
      | .ok data_mean =>
          rmanova_sss num_columns avm rest
            (acc + (num_columns : ℝ) * (data_mean - avm) ^ 2)

/-- Conditions sum-of-squares loop of `rmanova` (main.py lines 196-200),
iterating over the column indices `range(num_columns)`.  Under the
rectangularity guard of `rmanova` every accessed `datasets[row][column]`
is in range, so `row.getD column 0` is the accessed element. -/
def rmanova_ssc (datasets : List (List ℝ)) (num_rows : ℕ) (avm : ℝ) :
    List ℕ → ℝ → Except PyErr ℝ
  | [], acc => .ok acc
  | column :: rest, acc =>
      let column_data := datasets.map fun row => row.getD column 0
      match calculate_mean column_data false with
      | .error e => .error e
      | .ok column_mean =>
          rmanova_ssc datasets num_rows avm rest
            (acc + (num_rows : ℝ) * (column_mean - avm) ^ 2)

/-- `rmanova` from main.py (lines 171-219).  There is no dimension
validation: an empty matrix raises `IndexError` at `datasets[0]`; a row
shorter than the first row raises `IndexError` inside the column loop; a
single column makes `degrees_freedom_conditions = 0` and a single row
makes `degrees_freedom_error = 0`, each raising `ZeroDivisionError` at
the corresponding division. -/
def rmanova (fcdf : ℝ → ℤ → ℤ → ℝ) (datasets : List (List ℝ)) :
    Except PyErr (ℝ × ℝ) :=
  match datasets with
  | [] => .error .indexError
  | d0 :: rest =>
    let ds := d0 :: rest
    let num_rows := ds.length
    let num_columns := d0.length
    let all_values := ds.flatten
    match calculate_mean all_values false with
    | .error e => .error e
    | .ok all_values_mean =>
      match rmanova_sss num_columns all_values_mean ds 0 with
      | .error e => .error e
      | .ok sum_squares_subjects =>
        if ds.any fun row => row.length < num_columns then .error .indexError
        else
          match rmanova_ssc ds num_rows all_values_mean (List.range num_columns) 0 with
          | .error e => .error e
          | .ok sum_squares_conditions =>
            let sum_squares_total :=
              (all_values.map fun x => (x - all_values_mean) ^ 2).sum
            let sum_squares_error :=
              sum_squares_total - sum_squares_conditions - sum_squares_subjects
            let dfc : ℤ := (num_columns : ℤ) - 1
            let dfe : ℤ := ((num_columns : ℤ) - 1) * ((num_rows : ℤ) - 1)
            if dfc = 0 then .error .zeroDivisionError
            else
              let mean_squares_conditions := sum_squares_conditions / (dfc : ℝ)
              if dfe = 0 then .error .zeroDivisionError
              else
                let mean_squares_error := sum_squares_error / (dfe : ℝ)
                if mean_squares_error = 0 then .error .zeroDivisionError
                else
                  let f_stat := mean_squares_conditions / mean_squares_error
                  .ok (f_stat, 1 - fcdf f_stat dfc dfe)

/-- Arithmetic mean as computed by `calculate_mean(data)` with the default
mode: `0` on empty data, `sum(data) / len(data)` otherwise. -/
def arith_mean (data : List ℝ) : ℝ :=
  if data.length = 0 then 0 else data.sum / (data.length : ℝ)

/-- SummaryTriple of a raw sample: `(arithmeticMean r, populationStdDev r,
len r)`.  Passed to `t_test` as a Python tuple of numbers, which in the
numeric embedding is the corresponding 3-element sequence. -/
def summary_triple (r : List ℝ) : List ℝ :=
  [arith_mean r, std_dev r, (r.length : ℝ)]

/-- Concrete stand-in for the external Student-t CDF in closed evaluation
statements; its value at `t = 0` agrees with the real CDF. -/
def tcdfHalf : ℝ → ℤ → ℝ := fun _ _ => 1 / 2

/-- Concrete stand-in for the external F CDF in closed evaluation
statements. -/
def fcdfZero : ℝ → ℤ → ℤ → ℝ := fun _ _ _ => 0

end

/-! ### Basic lemmas about the embedded functions -/

lemma calculate_mean_false (d : List ℝ) :
    calculate_mean d false = .ok (if d.length = 0 then 0 else d.sum / (d.length : ℝ)) := by
  by_cases h : d.length = 0 <;> simp [calculate_mean, h]

lemma harmonic_from_has_zero (n acc : ℝ) (xs : List ℝ) (h : ∃ x ∈ xs, x = 0) :
    harmonic_from n acc xs = .ok 0 := by
  induction xs generalizing acc with
  | nil => simp at h
  | cons x xs ih =>
    by_cases hx : x = 0
    · simp [harmonic_from, hx]
    · have h' : ∃ y ∈ xs, y = 0 := by
        rcases h with ⟨y, hy, hy0⟩
        rcases List.mem_cons.mp hy with rfl | hmem
        · exact absurd hy0 hx
        · exact ⟨y, hmem, hy0⟩
      simp [harmonic_from, hx, ih _ h']

lemma harmonic_from_no_zero (n : ℝ) (xs : List ℝ) (h : ∀ x ∈ xs, x ≠ 0) (acc : ℝ) :
    harmonic_from n acc xs =
      if acc + (xs.map fun x => 1 / x).sum = 0 then .error .zeroDivisionError
      else .ok (n / (acc + (xs.map fun x => 1 / x).sum)) := by
  induction xs generalizing acc with
  | nil => simp [harmonic_from]
  | cons x xs ih =>
    have hx : x ≠ 0 := h x (List.mem_cons_self x xs)
    have h' : ∀ y ∈ xs, y ≠ 0 := fun y hy => h y (List.mem_cons_of_mem _ hy)
    simp only [harmonic_from, if_neg hx, ih h' (acc + 1 / x), List.map_cons,
      List.sum_cons, add_assoc]

lemma pooled_acc_spec (l : List (ℝ × ℤ)) (num : ℝ) (den : ℤ) :
    pooled_acc l num den =
      (num + (l.map fun p => ((p.2 - 1 : ℤ) : ℝ) * p.1 ^ 2).sum,
       den + (l.map fun p => p.2 - 1).sum) := by
  induction l generalizing num den with
  | nil => simp [pooled_acc]
  | cons p l ih =>
    obtain ⟨sigma, m⟩ := p
    simp [pooled_acc, ih, add_assoc]

lemma pooled_std_dev_two (σ1 σ2 : ℝ) (n1 n2 : ℤ) :
    pooled_std_dev [(σ1, n1), (σ2, n2)] =
      if (n1 - 1) + (n2 - 1) = 0 then .num 0
      else .num (Real.sqrt ((((n1 - 1 : ℤ) : ℝ) * σ1 ^ 2 + ((n2 - 1 : ℤ) : ℝ) * σ2 ^ 2) /
        ((((n1 - 1) + (n2 - 1) : ℤ)) : ℝ))) := by
  simp [pooled_std_dev, pooled_acc]

lemma std_dev_nonneg (d : List ℝ) : 0 ≤ std_dev d := by
  by_cases h : d.length = 0
  · simp [std_dev, h]
  · simp only [std_dev, h, if_false]
    positivity

lemma std_dev_nil : std_dev ([] : List ℝ) = 0 := by
  simp [std_dev]

lemma std_dev_singleton (x : ℝ) : std_dev [x] = 0 := by
  simp [std_dev]

lemma sqrt_four : Real.sqrt 4 = 2 := by
  rw [show (4 : ℝ) = 2 ^ 2 by norm_num, Real.sqrt_sq (by norm_num : (0:ℝ) ≤ 2)]

lemma std_dev_two_six : std_dev [(2 : ℝ), 6] = 2 := by
  simp only [std_dev]
  norm_num
  exact sqrt_four

lemma sideParams_cons_false (x : ℝ) (xs : List ℝ) :
    sideParams (x :: xs) false =
      .ok ((x :: xs).sum / ((x :: xs).length : ℝ), std_dev (x :: xs), (x :: xs).length) := by
  simp [sideParams, calculate_mean_false]

lemma t_test_eval_ok (tcdf : ℝ → ℤ → ℝ) (d1 d2 : List ℝ) (h1 : d1 ≠ []) (h2 : d2 ≠ [])
    (σp : ℝ)
    (hp : pooled_std_dev [(std_dev d1, (d1.length : ℤ)), (std_dev d2, (d2.length : ℤ))] =
      .num σp)
    (hse : σp * Real.sqrt (1 / (d1.length : ℝ) + 1 / (d2.length : ℝ)) ≠ 0) :
    t_test tcdf d1 d2 false =
      .ok ((d1.sum / (d1.length : ℝ) - d2.sum / (d2.length : ℝ)) /
             (σp * Real.sqrt (1 / (d1.length : ℝ) + 1 / (d2.length : ℝ))),
           2 * (1 - tcdf
             |(d1.sum / (d1.length : ℝ) - d2.sum / (d2.length : ℝ)) /
               (σp * Real.sqrt (1 / (d1.length : ℝ) + 1 / (d2.length : ℝ)))|
             ((d1.length : ℤ) + (d2.length : ℤ) - 2))) := by
  obtain ⟨x1, xs1, rfl⟩ := List.exists_cons_of_ne_nil h1
  obtain ⟨x2, xs2, rfl⟩ := List.exists_cons_of_ne_nil h2
  rw [t_test, sideParams_cons_false, sideParams_cons_false]
  simp only [hp, if_neg hse]

lemma t_test_eval_zero_se (tcdf : ℝ → ℤ → ℝ) (d1 d2 : List ℝ)
    (h1 : d1 ≠ []) (h2 : d2 ≠ []) (σp : ℝ)
    (hp : pooled_std_dev [(std_dev d1, (d1.length : ℤ)), (std_dev d2, (d2.length : ℤ))] =
      .num σp)
    (hse : σp * Real.sqrt (1 / (d1.length : ℝ) + 1 / (d2.length : ℝ)) = 0) :
    t_test tcdf d1 d2 false = .error .zeroDivisionError := by
  obtain ⟨x1, xs1, rfl⟩ := List.exists_cons_of_ne_nil h1
  obtain ⟨x2, xs2, rfl⟩ := List.exists_cons_of_ne_nil h2
  rw [t_test, sideParams_cons_false, sideParams_cons_false]
  simp only [hp, if_pos hse]

/-! ### Claim theorems -/

/-- C8 (confirmed): calculate_mean in its default arithmetic mode returns
`sum(sample) / len(sample)` on every non-empty flat sample and `0` on the
empty sample, raising no error in either case; in particular the
arithmetic mean of `[2, 4, 6]` is `4`. -/
theorem calculate_mean_arithmetic_spec :
    (∀ d : List ℝ, calculate_mean d false =
        .ok (if d.length = 0 then 0 else d.sum / (d.length : ℝ))) ∧
      calculate_mean [(2 : ℝ), 4, 6] false = .ok 4 := by
  refine ⟨calculate_mean_false, ?_⟩
  rw [calculate_mean_false]
  norm_num

/-- C4 (confirmed): one-way anova called with fewer than three groups
returns the error string `"error: anova requires at least 3 datasets"` —
the code's InsufficientGroups marker — and does not return a
`(statistic, pValue)` pair. -/
theorem anova_insufficient_groups (fcdf : ℝ → ℤ → ℤ → ℝ) (datasets : List (List ℝ))
    (h : datasets.length < 3) :
    anova fcdf datasets = .ok (.errStr "error: anova requires at least 3 datasets") ∧
      ∀ s p, anova fcdf datasets ≠ .ok (.pair s p) := by
  have he : anova fcdf datasets = .ok (.errStr "error: anova requires at least 3 datasets") := by
    rw [anova]
    simp [h]
  refine ⟨he, fun s p hc => ?_⟩
  rw [he] at hc
  exact AnovaOut.noConfusion (Except.ok.inj hc)

/-- C4 witness: with exactly two groups, anova returns the
insufficient-groups error string. -/
theorem anova_insufficient_groups_witness :
    anova fcdfZero [[1], [2]] = .ok (.errStr "error: anova requires at least 3 datasets") :=
  (anova_insufficient_groups fcdfZero [[1], [2]] (by simp)).1

/-- C6 (code bug): the spec requires a typed InvalidParameter failure when
a side has size `n < 1`, but the code has no such check: evaluated on an
empty first side it raises an untyped `IndexError` at the unguarded
`data[0]` access. -/
theorem t_test_empty_side_untyped_fault_eval :
    t_test tcdfHalf [] [(1 : ℝ), 2] false = .error .indexError := by
  rw [t_test]
  simp [sideParams]

/-- C10 (confirmed): whenever either side of t_test is an empty sequence,
the unguarded `data[0]` access in the input auto-detection raises an
untyped `IndexError`; no typed failure is produced. -/
theorem t_test_empty_side_raises_index_error (tcdf : ℝ → ℤ → ℝ) (d1 d2 : List ℝ)
    (h : d1 = [] ∨ d2 = []) :
    t_test tcdf d1 d2 false = .error .indexError := by
  rcases h with rfl | rfl
  · rw [t_test]
    simp [sideParams]
  · cases d1 with
    | nil =>
        rw [t_test]
        simp [sideParams]
    | cons x xs =>
        rw [t_test, sideParams_cons_false]
        simp [sideParams]

/-- C10 witness: an empty first side raises IndexError. -/
theorem t_test_empty_side_witness :
    t_test tcdfHalf [] [(3 : ℝ)] false = .error .indexError :=
  t_test_empty_side_raises_index_error tcdfHalf [] [(3 : ℝ)] (Or.inl rfl)

/-- C7 (confirmed): on at least two (σ, n) pairs drawn from the data model
(each n ≥ 1), pooled_std_dev returns
`sqrt(Σ (n_i - 1)·σ_i² / Σ (n_i - 1))`, and `0` when the denominator
`Σ (n_i - 1)` is `0`. -/
theorem pooled_std_dev_formula (pairs : List (ℝ × ℤ)) (hlen : 2 ≤ pairs.length)
    (_hn : ∀ p ∈ pairs, 1 ≤ p.2) :
    pooled_std_dev pairs =
      if (pairs.map fun p => p.2 - 1).sum = 0 then .num 0
      else .num (Real.sqrt ((pairs.map fun p => ((p.2 - 1 : ℤ) : ℝ) * p.1 ^ 2).sum /
        (((pairs.map fun p => p.2 - 1).sum : ℤ) : ℝ))) := by
  rw [pooled_std_dev]
  rw [if_neg (by omega : ¬ pairs.length < 2)]
  rw [pooled_acc_spec]
  simp

/-- C7 witness: `pooledStdDev([(2,10),(3,12)])` equals
`sqrt(((10-1)*4 + (12-1)*9) / (9+11)) = sqrt(135/20) ≈ 2.598`. -/
theorem pooled_std_dev_formula_witness :
    pooled_std_dev [((2 : ℝ), (10 : ℤ)), (3, 12)] = .num (Real.sqrt (135 / 20)) := by
  have h := pooled_std_dev_formula [((2 : ℝ), (10 : ℤ)), (3, 12)] (by simp)
    (by intro p hp; fin_cases hp <;> norm_num)
  rw [h]
  norm_num

/-- C9 counterexample: the claim says that on a non-empty sample with no
zero elements the harmonic mean `n / Σ 1/x` is returned, but on `[1, -1]`
the reciprocal sum is `0` and the code raises `ZeroDivisionError` instead
of returning. -/
theorem harmonic_zero_recip_sum_raises :
    calculate_mean [(1 : ℝ), -1] true ≠
      .ok ((([(1 : ℝ), -1].length : ℕ) : ℝ) / ([(1 : ℝ), -1].map fun x => 1 / x).sum) := by
  have h : calculate_mean [(1 : ℝ), -1] true = .error .zeroDivisionError := by
    norm_num [calculate_mean, harmonic_from]
  rw [h]
  simp

/-- C9 (corrected): the code fixes the harmonic-mean zero-handling to
policy (b): any zero element makes the result `0.0`; on a non-empty
sample with no zero elements it returns `n / Σ 1/x` provided that
reciprocal sum is nonzero (when the reciprocal sum is zero the division
`n / total_reciprocal` raises `ZeroDivisionError`). -/
theorem harmonic_mean_policy (d : List ℝ) (hne : d ≠ []) :
    ((∃ x ∈ d, x = 0) → calculate_mean d true = .ok 0) ∧
      ((∀ x ∈ d, x ≠ 0) → (d.map fun x => 1 / x).sum ≠ 0 →
        calculate_mean d true = .ok ((d.length : ℝ) / (d.map fun x => 1 / x).sum)) := by
  have hlen : ¬ d.length = 0 := by simpa [List.length_eq_zero] using hne
  constructor
  · intro hz
    rw [calculate_mean]
    simp only [if_neg hlen, if_true, Bool.cond_decide]
    simpa using harmonic_from_has_zero (d.length : ℝ) 0 d hz
  · intro hnz hsum
    rw [calculate_mean]
    simp only [if_neg hlen]
    rw [if_pos trivial, harmonic_from_no_zero _ _ hnz 0]
    simp only [zero_add, if_neg hsum]

/-- C9 witness: the harmonic mean of `[1, 2, 4]` is `3 / (7/4) = 12/7`. -/
theorem harmonic_mean_policy_witness :
    calculate_mean [(1 : ℝ), 2, 4] true = .ok (12 / 7) := by
  have h := (harmonic_mean_policy [(1 : ℝ), 2, 4] (by simp)).2
    (by intro x hx; fin_cases hx <;> norm_num) (by norm_num)
  rw [h]
  norm_num

/-! ### Concrete evaluation lemmas for the remaining claims -/

lemma std_dev_pair_eq (x : ℝ) : std_dev [x, x] = 0 := by
  simp only [std_dev, List.length_cons, List.length_nil, List.sum_cons, List.sum_nil,
    List.map_cons, List.map_nil]
  norm_num

lemma std_dev_123 : std_dev [(1 : ℝ), 2, 3] = Real.sqrt (2 / 3) := by
  simp only [std_dev]
  norm_num

lemma std_dev_422 : std_dev [(4 : ℝ), 2, 2] = Real.sqrt (8 / 9) := by
  simp only [std_dev]
  norm_num

lemma pooled_26_26 :
    pooled_std_dev [(std_dev [(2:ℝ), 6], (List.length [(2:ℝ), 6] : ℤ)),
      (std_dev [(2:ℝ), 6], (List.length [(2:ℝ), 6] : ℤ))] = .num 2 := by
  rw [std_dev_two_six, pooled_std_dev_two]
  norm_num
  exact sqrt_four

lemma pooled_26_123 :
    pooled_std_dev [(std_dev [(2:ℝ), 6], (List.length [(2:ℝ), 6] : ℤ)),
      (std_dev [(1:ℝ), 2, 3], (List.length [(1:ℝ), 2, 3] : ℤ))] = .num (4 / 3) := by
  rw [std_dev_two_six, std_dev_123, pooled_std_dev_two]
  rw [if_neg (by norm_num)]
  rw [Real.sq_sqrt (by norm_num : (0:ℝ) ≤ 2 / 3)]
  norm_num
  rw [show (16:ℝ) = 4 ^ 2 by norm_num, show (9:ℝ) = 3 ^ 2 by norm_num,
    Real.sqrt_sq (by norm_num : (0:ℝ) ≤ 4), Real.sqrt_sq (by norm_num : (0:ℝ) ≤ 3)]

lemma pooled_26_422 :
    pooled_std_dev [(std_dev [(2:ℝ), 6], (List.length [(2:ℝ), 6] : ℤ)),
      (std_dev [(4:ℝ), 2, 2], (List.length [(4:ℝ), 2, 2] : ℤ))] =
      .num (Real.sqrt (52 / 27)) := by
  rw [std_dev_two_six, std_dev_422, pooled_std_dev_two]
  rw [if_neg (by norm_num)]
  rw [Real.sq_sqrt (by norm_num : (0:ℝ) ≤ 8 / 9)]
  norm_num

/-- C2 counterexample: the claim quantifies over all pairs of non-empty
sides, but on the non-empty sides `[1,1]` and `[2,2]` both population
standard deviations are `0`, the standard error collapses to `0`, and
t_test raises `ZeroDivisionError` instead of returning the claimed
statistic and p-value. -/
theorem t_test_zero_se_raises :
    t_test tcdfHalf [(1:ℝ), 1] [(2:ℝ), 2] false = .error .zeroDivisionError := by
  have hp : pooled_std_dev [(std_dev [(1:ℝ), 1], (List.length [(1:ℝ), 1] : ℤ)),
      (std_dev [(2:ℝ), 2], (List.length [(2:ℝ), 2] : ℤ))] = .num 0 := by
    rw [std_dev_pair_eq, std_dev_pair_eq, pooled_std_dev_two]
    norm_num
  exact t_test_eval_zero_se tcdfHalf _ _ (by simp) (by simp) 0 hp (zero_mul _)

/-- C2 (corrected): for non-empty raw sides whose standard error
`σ_p · sqrt(1/n1 + 1/n2)` is nonzero, t_test returns exactly
`t = (mean1 - mean2) / SE` — with `(meanᵢ, σᵢ, nᵢ)` derived from side i by
arithmetic mean, population standard deviation and length, and `σ_p` the
pooled standard deviation of `[(σ1,n1), (σ2,n2)]` — and
`p = 2·(1 - studentTCDF(|t|, n1+n2-2))`; when the standard error is zero
the code raises `ZeroDivisionError` instead. -/
theorem t_test_formula_of_raw_sides (tcdf : ℝ → ℤ → ℝ) (d1 d2 : List ℝ)
    (h1 : d1 ≠ []) (h2 : d2 ≠ []) (σp : ℝ)
    (hp : pooled_std_dev [(std_dev d1, (d1.length : ℤ)), (std_dev d2, (d2.length : ℤ))] =
      .num σp)
    (hse : σp * Real.sqrt (1 / (d1.length : ℝ) + 1 / (d2.length : ℝ)) ≠ 0) :
    t_test tcdf d1 d2 false =
      .ok ((d1.sum / (d1.length : ℝ) - d2.sum / (d2.length : ℝ)) /
             (σp * Real.sqrt (1 / (d1.length : ℝ) + 1 / (d2.length : ℝ))),
           2 * (1 - tcdf
             |(d1.sum / (d1.length : ℝ) - d2.sum / (d2.length : ℝ)) /
               (σp * Real.sqrt (1 / (d1.length : ℝ) + 1 / (d2.length : ℝ)))|
             ((d1.length : ℤ) + (d2.length : ℤ) - 2))) :=
  t_test_eval_ok tcdf d1 d2 h1 h2 σp hp hse

/-- C2 witness: on `[2,6]` and `[1,2,3]` the pooled standard deviation is
`4/3`, the means are `4` and `2`, and t_test returns the formula's value
(the stand-in CDF makes the p-value `1`). -/
theorem t_test_formula_witness :
    t_test tcdfHalf [(2:ℝ), 6] [(1:ℝ), 2, 3] false =
      .ok (2 / ((4 / 3) * Real.sqrt (1 / 2 + 1 / 3)), 1) := by
  have hse : (4 / 3 : ℝ) *
      Real.sqrt (1 / (List.length [(2:ℝ), 6] : ℝ) + 1 / (List.length [(1:ℝ), 2, 3] : ℝ)) ≠ 0 := by
    have hs : (0:ℝ) <
        Real.sqrt (1 / (List.length [(2:ℝ), 6] : ℝ) + 1 / (List.length [(1:ℝ), 2, 3] : ℝ)) :=
      Real.sqrt_pos.mpr (by norm_num)
    exact (mul_pos (by norm_num) hs).ne'
  have h := t_test_formula_of_raw_sides tcdfHalf [(2:ℝ), 6] [(1:ℝ), 2, 3]
    (by simp) (by simp) (4 / 3) pooled_26_123 hse
  rw [h]
  norm_num [tcdfHalf]

/-- C3 counterexample: on the identical constant samples `[1,1]` the
pooled standard deviation is `0`, so instead of yielding `t = 0` and
`p = 1` the code raises `ZeroDivisionError` at the division by the zero
standard error. -/
theorem t_test_identical_constant_raises :
    t_test tcdfHalf [(1:ℝ), 1] [(1:ℝ), 1] false ≠ .ok (0, 1) := by
  have hp : pooled_std_dev [(std_dev [(1:ℝ), 1], (List.length [(1:ℝ), 1] : ℤ)),
      (std_dev [(1:ℝ), 1], (List.length [(1:ℝ), 1] : ℤ))] = .num 0 := by
    rw [std_dev_pair_eq, pooled_std_dev_two]
    norm_num
  have h := t_test_eval_zero_se tcdfHalf _ _ (by simp) (by simp) 0 hp (zero_mul _)
  rw [h]
  simp

/-- C3 (corrected): for every sample whose population standard deviation
is nonzero, and any CDF whose value at `0` is `1/2` (true of the real
Student-t CDF), t_test of the sample with itself returns exactly `t = 0`
and `p = 1`; for constant samples the code raises `ZeroDivisionError`
instead. -/
theorem t_test_self (tcdf : ℝ → ℤ → ℝ) (s : List ℝ) (hσ : std_dev s ≠ 0)
    (htc : tcdf 0 ((s.length : ℤ) + (s.length : ℤ) - 2) = 1 / 2) :
    t_test tcdf s s false = .ok (0, 1) := by
  have hne : s ≠ [] := by
    intro h
    exact hσ (h ▸ std_dev_nil)
  have hn2 : 2 ≤ s.length := by
    match s, hne with
    | [x], _ => exact absurd (std_dev_singleton x) hσ
    | x :: y :: t, _ =>
        show 2 ≤ t.length + 1 + 1
        omega
  have hnz : ((s.length : ℤ) - 1) + ((s.length : ℤ) - 1) ≠ 0 := by
    have : (2 : ℤ) ≤ (s.length : ℤ) := by exact_mod_cast hn2
    omega
  have hcR : (((s.length : ℤ) - 1 : ℤ) : ℝ) ≠ 0 := by
    have : (2 : ℤ) ≤ (s.length : ℤ) := by exact_mod_cast hn2
    intro hc
    rw [Int.cast_eq_zero] at hc
    omega
  have hp : pooled_std_dev [(std_dev s, (s.length : ℤ)), (std_dev s, (s.length : ℤ))] =
      .num (std_dev s) := by
    rw [pooled_std_dev_two, if_neg hnz]
    have harg : ((((s.length : ℤ) - 1 : ℤ) : ℝ) * std_dev s ^ 2 +
        (((s.length : ℤ) - 1 : ℤ) : ℝ) * std_dev s ^ 2) /
        (((((s.length : ℤ) - 1) + ((s.length : ℤ) - 1) : ℤ)) : ℝ) = std_dev s ^ 2 := by
      have h2 : (2:ℝ) ≤ (s.length : ℝ) := by exact_mod_cast hn2
      have hden : ((s.length : ℝ) - 1) + ((s.length : ℝ) - 1) ≠ 0 := by
        intro h0
        linarith
      push_cast
      rw [div_eq_iff hden]
      ring
    rw [harg, Real.sqrt_sq (std_dev_nonneg s)]
  have hnpos : (0 : ℝ) < (s.length : ℝ) := by
    have : 0 < s.length := by omega
    exact_mod_cast this
  have hse : std_dev s * Real.sqrt (1 / (s.length : ℝ) + 1 / (s.length : ℝ)) ≠ 0 := by
    have hs : (0:ℝ) < Real.sqrt (1 / (s.length : ℝ) + 1 / (s.length : ℝ)) := by
      apply Real.sqrt_pos.mpr
      have := one_div_pos.mpr hnpos
      linarith
    exact mul_ne_zero hσ hs.ne'
  rw [t_test_eval_ok tcdf s s hne hne (std_dev s) hp hse]
  rw [sub_self, zero_div, abs_zero, htc]
  norm_num

/-- C3 witness: on `[2,6]` (standard deviation `2`) against itself the
test returns `t = 0`, `p = 1`. -/
theorem t_test_self_witness :
    t_test tcdfHalf [(2:ℝ), 6] [(2:ℝ), 6] false = .ok (0, 1) :=
  t_test_self tcdfHalf [(2:ℝ), 6] (by rw [std_dev_two_six]; norm_num) rfl

/-- C5 (code bug): the spec requires a typed InvalidParameter failure for
a matrix with fewer than two columns or rows, but rmanova performs no
dimension check: on the 2-subject, 1-condition matrix `[[1],[2]]` it
raises an untyped `ZeroDivisionError` at the division by
`degrees_freedom_conditions = num_columns - 1 = 0`. -/
theorem rmanova_single_column_zero_division :
    rmanova fcdfZero [[(1:ℝ)], [(2:ℝ)]] = .error .zeroDivisionError := by
  rw [rmanova]
  have hr : List.range 1 = [0] := by decide
  norm_num [calculate_mean_false, rmanova_sss, rmanova_ssc, hr, List.getD]

lemma summary_triple_26 : summary_triple [(2:ℝ), 6] = [4, 2, 2] := by
  rw [summary_triple, std_dev_two_six]
  norm_num [arith_mean]

/-- C1 (code bug): the round-trip property fails.  The SummaryTriple of
`r = [2,6]` is `(4, 2, 2)`; because the dispatch condition
`not isinstance(data[0], (int, float))` is false for a numeric tuple,
t_test aggregates it as a raw 3-observation sample with mean `8/3`, so
the t-statistic against `[2,6]` is positive, while two raw copies of
`[2,6]` give t-statistic `0`. -/
theorem t_test_roundtrip_fails_on_numeric_triple :
    Except.map Prod.fst (t_test tcdfHalf [(2:ℝ), 6] (summary_triple [(2:ℝ), 6]) false) ≠
      Except.map Prod.fst (t_test tcdfHalf [(2:ℝ), 6] [(2:ℝ), 6] false) := by
  have hseL : Real.sqrt (52 / 27) *
      Real.sqrt (1 / (List.length [(2:ℝ), 6] : ℝ) +
        1 / (List.length [(4:ℝ), 2, 2] : ℝ)) ≠ 0 := by
    have h1 : (0:ℝ) < Real.sqrt (52 / 27) := Real.sqrt_pos.mpr (by norm_num)
    have h2 : (0:ℝ) < Real.sqrt (1 / (List.length [(2:ℝ), 6] : ℝ) +
        1 / (List.length [(4:ℝ), 2, 2] : ℝ)) :=
      Real.sqrt_pos.mpr (by norm_num)
    exact (mul_pos h1 h2).ne'
  have hseR : (2:ℝ) * Real.sqrt (1 / (List.length [(2:ℝ), 6] : ℝ) +
      1 / (List.length [(2:ℝ), 6] : ℝ)) ≠ 0 := by
    have h2 : (0:ℝ) < Real.sqrt (1 / (List.length [(2:ℝ), 6] : ℝ) +
        1 / (List.length [(2:ℝ), 6] : ℝ)) :=
      Real.sqrt_pos.mpr (by norm_num)
    exact (mul_pos (by norm_num) h2).ne'
  rw [summary_triple_26]
  rw [t_test_eval_ok tcdfHalf [(2:ℝ), 6] [(4:ℝ), 2, 2] (by simp) (by simp)
    (Real.sqrt (52 / 27)) pooled_26_422 hseL]
  rw [t_test_eval_ok tcdfHalf [(2:ℝ), 6] [(2:ℝ), 6] (by simp) (by simp) 2 pooled_26_26 hseR]
  simp only [Except.map, Except.ok.injEq]
  norm_num
